import Mathlib

/-!
Shallow embedding of the `postal-rs` client library (src/lib.rs, src/error.rs):
the JSON wire model, the error taxonomy, the envelope decoder
(`check_status`, `check_responce`), the send-result flattening
(`handle_send`), the `Message` serialization, the `DetailsInterest`
expansion builder, and `Client` construction.  Statements about the
library's behaviour follow, one per specification claim.
-/

namespace Postal

/-- JSON values, the image of `serde_json::Value`.  Objects are modelled as
association lists of key/value pairs; numbers as rationals (JSON has a single
number type covering the `u64` and `f64` uses in the source). -/
inductive Json where
  | null
  | bool (b : Bool)
  | num (q : Rat)
  | str (s : String)
  | arr (xs : List Json)
  | obj (fields : List (String × Json))

/-- Key lookup in a JSON object; `none` on non-objects and missing keys. -/
def Json.lookup (j : Json) (key : String) : Option Json :=
  match j with
  | .obj fields => List.lookup key fields
  | _ => none

/-- The keys of a JSON object, in order. -/
def Json.keys (j : Json) : List String :=
  match j with
  | .obj fields => fields.map Prod.fst
  | _ => []

/-- Whether the value is JSON `null`. -/
def Json.isNull (j : Json) : Bool :=
  match j with
  | .null => true
  | _ => false

/-- The error taxonomy of the crate (src/error.rs, `PostalError`).  Payloads
that only carry foreign library detail (`reqwest::Error`, `url::ParseError`)
are dropped; the spec calls `UrlIssue` the `InvalidAddress` kind. -/
inductive PostalError where
  | Network
  | UrlIssue
  | Error (code : String) (message : String)
  | InternalServerError
  | ServiceUnavailableError
  | ExpectedAlternativeUrl
deriving DecidableEq

/-- Outcome of a Rust computation that may return, fail with a `PostalError`,
or panic (`unreachable!` / `unimplemented!` in the source). -/
inductive RustOutcome (α : Type) where
  | ok (a : α)
  | err (e : PostalError)
  | panicked (msg : String)

/-- Whether the outcome is an error return (not a success, not a panic). -/
def RustOutcome.isErr {α : Type} (o : RustOutcome α) : Bool :=
  match o with
  | .err _ => true
  | _ => false

/-- Status triage (src/lib.rs `check_status`): 200 proceeds, 500/301/308/503
map to taxonomy errors, anything else hits `unreachable!`. -/
def check_status (sc : Nat) : RustOutcome Unit :=
  if sc = 200 then .ok ()
  else if sc = 500 then .err .InternalServerError
  else if sc = 301 ∨ sc = 308 then .err .ExpectedAlternativeUrl
  else if sc = 503 then .err .ServiceUnavailableError
  else .panicked "internal error: entered unreachable code"

/-- The `{code, message}` payload of an error envelope
(src/lib.rs `api_structures::ResponceError`). -/
structure ResponceError where
  code : String
  message : String
deriving DecidableEq

/-- The tri-variant response envelope (src/lib.rs `api_structures::Responce`),
tagged by `status` with camelCase variant names on the wire.  `flags` is a
`HashMap<String, u64>`, modelled as an association list. -/
inductive Responce (D : Type) where
  | Success (time : Rat) (flags : List (String × Nat)) (data : D)
  | ParameterError
  | Error (time : Rat) (flags : List (String × Nat)) (data : ResponceError)

/-- Envelope unwrapping (src/lib.rs `check_responce`): success yields the
payload, error yields `PostalError::Error`, parameter-error hits
`unimplemented!`. -/
def check_responce {D : Type} (data : Responce D) : RustOutcome D :=
  match data with
  | .Success _ _ d => .ok d
  | .Error _ _ e => .err (.Error e.code e.message)
  | .ParameterError => .panicked "not implemented"

/-- Decoding a JSON string (serde `String`). -/
def decodeString (j : Json) : Option String :=
  match j with
  | .str s => some s
  | _ => none

/-- Decoding a JSON boolean (serde `bool`). -/
def decodeBool (j : Json) : Option Bool :=
  match j with
  | .bool b => some b
  | _ => none

/-- Decoding a `u64`: an integral, non-negative JSON number below `2^64`. -/
def decodeU64 (j : Json) : Option Nat :=
  match j with
  | .num q => if q.den = 1 ∧ 0 ≤ q.num ∧ q.num < 2 ^ 64 then some q.num.toNat else none
  | _ => none

/-- Decoding a `u8`: an integral, non-negative JSON number below `256`. -/
def decodeU8 (j : Json) : Option Nat :=
  match j with
  | .num q => if q.den = 1 ∧ 0 ≤ q.num ∧ q.num < 256 then some q.num.toNat else none
  | _ => none

/-- Decoding an `f64` field such as `time`: any JSON number. -/
def decodeF64 (j : Json) : Option Rat :=
  match j with
  | .num q => some q
  | _ => none

/-- Elementwise fallible map (serde's sequence decoding, `mapM` over
`Option`): the first failing element fails the whole list. -/
def mapOptionList {α β : Type} (f : α → Option β) : List α → Option (List β)
  | [] => some []
  | x :: xs => do
      let y ← f x
      let ys ← mapOptionList f xs
      some (y :: ys)

/-- Decoding a `Vec<T>` from a JSON array, elementwise. -/
def decodeList {α : Type} (dec : Json → Option α) (j : Json) : Option (List α) :=
  match j with
  | .arr xs => mapOptionList dec xs
  | _ => none

/-- Decoding a `HashMap<String, V>` from a JSON object, valuewise.  The map is
modelled as an association list in the wire object's order. -/
def decodeStringMap {α : Type} (dec : Json → Option α) (j : Json) : Option (List (String × α)) :=
  match j with
  | .obj fields => mapOptionList (fun p => (dec p.2).map (fun v => (p.1, v))) fields
  | _ => none

/-- Per-recipient record of a send success
(src/lib.rs `api_structures::MessageDataTo`). -/
structure MessageDataTo where
  id : Nat
  token : String
deriving DecidableEq

/-- Success payload of a send call
(src/lib.rs `api_structures::MessageSucessData`); `messages` is the
recipient-to-record mapping. -/
structure MessageSucessData where
  message_id : String
  messages : List (String × MessageDataTo)

/-- Decoding `MessageDataTo` from its JSON object. -/
def decodeMessageDataTo (j : Json) : Option MessageDataTo := do
  let i ← decodeU64 (← j.lookup "id")
  let t ← decodeString (← j.lookup "token")
  some ⟨i, t⟩

/-- Decoding `MessageSucessData` from its JSON object. -/
def decodeMessageSucessData (j : Json) : Option MessageSucessData := do
  let mid ← decodeString (← j.lookup "message_id")
  let ms ← decodeStringMap decodeMessageDataTo (← j.lookup "messages")
  some ⟨mid, ms⟩

/-- Decoding the payload of `get_message_details`: a
`HashMap<String, Json>` taken verbatim. -/
def decodeDetailsData (j : Json) : Option (List (String × Json)) :=
  match j with
  | .obj fields => some fields
  | _ => none

/-- Decoding the `flags` field, a `HashMap<String, u64>`. -/
def decodeFlags (j : Json) : Option (List (String × Nat)) :=
  decodeStringMap decodeU64 j

/-- Decoding the `{code, message}` error payload (`ResponceError`). -/
def decodeResponceError (j : Json) : Option ResponceError := do
  let c ← decodeString (← j.lookup "code")
  let m ← decodeString (← j.lookup "message")
  some ⟨c, m⟩

/-- Decoding the envelope (serde's internally tagged enum over `status` with
camelCase variant names: `success`, `parameterError`, `error`). -/
def decodeResponce {D : Type} (decD : Json → Option D) (j : Json) : Option (Responce D) :=
  match j.lookup "status" with
  | some (.str "success") => do
      let t ← decodeF64 (← j.lookup "time")
      let f ← decodeFlags (← j.lookup "flags")
      let d ← decD (← j.lookup "data")
      some (.Success t f d)
  | some (.str "parameterError") => some .ParameterError
  | some (.str "error") => do
      let t ← decodeF64 (← j.lookup "time")
      let f ← decodeFlags (← j.lookup "flags")
      let d ← decodeResponceError (← j.lookup "data")
      some (.Error t f d)
  | _ => none

/-- The response pipeline every operation shares (src/lib.rs lines 122-125,
146-149, 156-159): triage the status, decode the envelope from the body (a
decode failure is a `reqwest` error, i.e. `PostalError::Network`), then unwrap
it with `check_responce`. -/
def run_request {D : Type} (decD : Json → Option D) (status : Nat) (body : Json) :
    RustOutcome D :=
  match check_status status with
  | .ok _ =>
      match decodeResponce decD body with
      | none => .err .Network
      | some r => check_responce r
  | .err e => .err e
  | .panicked m => .panicked m

/-- Result of a send request (src/lib.rs `SendResult`). -/
structure SendResult where
  «to» : String
  id : Nat
deriving DecidableEq

/-- The flattening step of `handle_send` (src/lib.rs lines 161-165): one
`SendResult` per entry of the recipient mapping. -/
def flatten_send (d : MessageSucessData) : List SendResult :=
  d.messages.map (fun p => ⟨p.1, p.2.id⟩)

/-- Post-decode part of `handle_send`: unwrap the envelope, then flatten. -/
def handle_send_decoded (r : Responce MessageSucessData) : RustOutcome (List SendResult) :=
  match check_responce r with
  | .ok d => .ok (flatten_send d)
  | .err e => .err e
  | .panicked m => .panicked m

/-- `handle_send` (src/lib.rs): the full decode pipeline of `send`/`send_raw`
applied to an HTTP status and response body. -/
def handle_send (status : Nat) (body : Json) : RustOutcome (List SendResult) :=
  match check_status status with
  | .ok _ =>
      match decodeResponce decodeMessageSucessData body with
      | none => .err .Network
      | some r => handle_send_decoded r
  | .err e => .err e
  | .panicked m => .panicked m

/-- An outbound email (src/lib.rs `Message`): all fields optional, absent by
default.  `MessageHash` is `u64`, bytes are `u8`; both are modelled as `Nat`
(no arithmetic is performed on them). -/
structure Message where
  «to» : Option (List String) := none
  cc : Option (List String) := none
  bcc : Option (List String) := none
  «from» : Option String := none
  sender : Option String := none
  subject : Option String := none
  tag : Option String := none
  reply_to : Option String := none
  plain_body : Option String := none
  html_body : Option String := none
  attachments : Option (List (List Nat)) := none
  headers : Option Nat := none
  bounce : Option Bool := none
deriving DecidableEq

/-- The default `Message` (`Message::default()`): every field absent. -/
def Message.default : Message := {}

/-- Encoding a string. -/
def encodeString (s : String) : Json := .str s

/-- Encoding an unsigned integer (`u64` or `u8`) as a JSON number. -/
def encodeNat (n : Nat) : Json := .num (n : Rat)

/-- Encoding a boolean. -/
def encodeBool (b : Bool) : Json := .bool b

/-- Encoding a `Vec<T>` as a JSON array, elementwise. -/
def encodeList {α : Type} (enc : α → Json) (xs : List α) : Json := .arr (xs.map enc)

/-- serde's derived encoding of an `Option<T>` field without
`skip_serializing_if`: `None` becomes JSON `null`, `Some v` the encoding of
`v`; the key is always emitted. -/
def encodeOptField {α : Type} (enc : α → Json) (o : Option α) : Json :=
  match o with
  | none => .null
  | some a => enc a

/-- serde's derived decoding of an `Option<T>` field: a missing key and JSON
`null` both give `None`; any other value decodes the inner type. -/
def decodeOptField {α : Type} (dec : Json → Option α) (o : Option Json) : Option (Option α) :=
  match o with
  | none => some none
  | some j => if j.isNull then some none else (dec j).map some

/-- serde's derived `Serialize` for `Message`: a JSON object with all thirteen
declared keys in declaration order; `None` fields serialize as `null`. -/
def serialize_Message (m : Message) : Json :=
  .obj
    [ ("to", encodeOptField (encodeList encodeString) m.to),
      ("cc", encodeOptField (encodeList encodeString) m.cc),
      ("bcc", encodeOptField (encodeList encodeString) m.bcc),
      ("from", encodeOptField encodeString m.from),
      ("sender", encodeOptField encodeString m.sender),
      ("subject", encodeOptField encodeString m.subject),
      ("tag", encodeOptField encodeString m.tag),
      ("reply_to", encodeOptField encodeString m.reply_to),
      ("plain_body", encodeOptField encodeString m.plain_body),
      ("html_body", encodeOptField encodeString m.html_body),
      ("attachments", encodeOptField (encodeList (encodeList encodeNat)) m.attachments),
      ("headers", encodeOptField encodeNat m.headers),
      ("bounce", encodeOptField encodeBool m.bounce) ]

/-- serde's derived `Deserialize` for `Message`: each field is looked up by
key; missing or `null` gives `None`; unknown keys are ignored. -/
def deserialize_Message (j : Json) : Option Message :=
  match j with
  | .obj _ => do
      let t ← decodeOptField (decodeList decodeString) (j.lookup "to")
      let c ← decodeOptField (decodeList decodeString) (j.lookup "cc")
      let b ← decodeOptField (decodeList decodeString) (j.lookup "bcc")
      let f ← decodeOptField decodeString (j.lookup "from")
      let sd ← decodeOptField decodeString (j.lookup "sender")
      let su ← decodeOptField decodeString (j.lookup "subject")
      let tg ← decodeOptField decodeString (j.lookup "tag")
      let r ← decodeOptField decodeString (j.lookup "reply_to")
      let p ← decodeOptField decodeString (j.lookup "plain_body")
      let h ← decodeOptField decodeString (j.lookup "html_body")
      let a ← decodeOptField (decodeList (decodeList decodeU8)) (j.lookup "attachments")
      let hd ← decodeOptField decodeU64 (j.lookup "headers")
      let bo ← decodeOptField decodeBool (j.lookup "bounce")
      some ⟨t, c, b, f, sd, su, tg, r, p, h, a, hd, bo⟩
  | _ => none

/-- Expansion interest for message details (src/lib.rs `DetailsInterest`):
a message-hash plus eight optional unit markers. -/
structure DetailsInterest where
  id : Nat
  status : Option Unit
  details : Option Unit
  inspection : Option Unit
  plain_body : Option Unit
  html_body : Option Unit
  attachments : Option Unit
  headers : Option Unit
  raw_message : Option Unit
deriving DecidableEq

namespace DetailsInterest

/-- `impl Into<DetailsInterest> for MessageHash`: all flags unset. -/
def ofMessageHash (id : Nat) : DetailsInterest :=
  ⟨id, none, none, none, none, none, none, none, none⟩

/-- `DetailsInterest::new`: delegates to the `MessageHash` conversion. -/
def new (id : Nat) : DetailsInterest := ofMessageHash id

/-- `with_status` setter. -/
def with_status (d : DetailsInterest) : DetailsInterest := { d with status := some () }

/-- `with_details` setter. -/
def with_details (d : DetailsInterest) : DetailsInterest := { d with details := some () }

/-- `with_inspection` setter. -/
def with_inspection (d : DetailsInterest) : DetailsInterest := { d with inspection := some () }

/-- `with_plain_body` setter. -/
def with_plain_body (d : DetailsInterest) : DetailsInterest := { d with plain_body := some () }

/-- `with_html_body` setter. -/
def with_html_body (d : DetailsInterest) : DetailsInterest := { d with html_body := some () }

/-- `with_headers` setter. -/
def with_headers (d : DetailsInterest) : DetailsInterest := { d with headers := some () }

/-- `with_raw_message` setter. -/
def with_raw_message (d : DetailsInterest) : DetailsInterest := { d with raw_message := some () }

/-- `build_expansions_list` (src/lib.rs lines 338-391): starts from `None`,
and for each set flag in declared order materialises the vector if needed and
pushes the flag's name.  The `attachments` flag is never consulted. -/
def build_expansions_list (d : DetailsInterest) : Option (List Json) :=
  let expansions : Option (List Json) := none
  let expansions :=
    if d.status.isSome then some (expansions.getD [] ++ [Json.str "status"]) else expansions
  let expansions :=
    if d.details.isSome then some (expansions.getD [] ++ [Json.str "details"]) else expansions
  let expansions :=
    if d.inspection.isSome then some (expansions.getD [] ++ [Json.str "inspection"]) else expansions
  let expansions :=
    if d.plain_body.isSome then some (expansions.getD [] ++ [Json.str "plain_body"]) else expansions
  let expansions :=
    if d.html_body.isSome then some (expansions.getD [] ++ [Json.str "html_body"]) else expansions
  let expansions :=
    if d.headers.isSome then some (expansions.getD [] ++ [Json.str "headers"]) else expansions
  let expansions :=
    if d.raw_message.isSome then some (expansions.getD [] ++ [Json.str "raw_message"]) else expansions
  expansions

/-- `impl Into<Json> for DetailsInterest`: an object with `id`, and
`_expansions` only when `build_expansions_list` produced a vector. -/
def toJson (d : DetailsInterest) : Json :=
  .obj
    ([("id", Json.num (d.id : Rat))] ++
      match build_expansions_list d with
      | none => []
      | some expansions => [("_expansions", Json.arr expansions)])

end DetailsInterest

/-- The names of the set flags in the declared fixed order, written from the
spec's words ("status, details, inspection, plain_body, html_body, headers,
raw_message"), for comparison with `build_expansions_list`. -/
def specExpansions (d : DetailsInterest) : List String :=
  (if d.status.isSome then ["status"] else []) ++
    (if d.details.isSome then ["details"] else []) ++
    (if d.inspection.isSome then ["inspection"] else []) ++
    (if d.plain_body.isSome then ["plain_body"] else []) ++
    (if d.html_body.isSome then ["html_body"] else []) ++
    (if d.headers.isSome then ["headers"] else []) ++
    (if d.raw_message.isSome then ["raw_message"] else [])

/-- The public mutating operations on a `DetailsInterest`: the seven
`with_<flag>` setters.  No operation sets `attachments`. -/
inductive Setter where
  | status
  | details
  | inspection
  | plain_body
  | html_body
  | headers
  | raw_message
deriving DecidableEq

/-- Applying one public setter. -/
def applySetter (s : Setter) (d : DetailsInterest) : DetailsInterest :=
  match s with
  | .status => d.with_status
  | .details => d.with_details
  | .inspection => d.with_inspection
  | .plain_body => d.with_plain_body
  | .html_body => d.with_html_body
  | .headers => d.with_headers
  | .raw_message => d.with_raw_message

/-- Applying a sequence of public setters, left to right. -/
def applySetters (ss : List Setter) (d : DetailsInterest) : DetailsInterest :=
  ss.foldl (fun d s => applySetter s d) d

/-- A parsed absolute URL, split at the scheme separator. -/
structure Url where
  scheme : String
  rest : String
deriving DecidableEq

/-- A character allowed in a URL scheme: letters, digits, `+`, `-`, `.`. -/
def isSchemeChar (c : Char) : Bool :=
  c.isAlphanum || c = '+' || c = '-' || c = '.'

/-- Modelled from the spec: the external URL-parsing collaborator
(`url::Url::parse`, not part of this repository), which per §4.1 "fails ...
if the address does not parse as an absolute URL".  An absolute URL is a
scheme — a letter followed by letters, digits, `+`, `-` or `.` — then `:`
and the remainder; spaces and control characters are rejected. -/
def Url.parse (s : String) : Option Url :=
  let cs := s.data
  if cs.any (fun c => c = ' ' || c.toNat < 32) then none
  else
    match cs.takeWhile (fun c => c ≠ ':'), cs.dropWhile (fun c => c ≠ ':') with
    | scheme, _ :: rest =>
        if !scheme.isEmpty && scheme.all isSchemeChar && (scheme.headD 'a').isAlpha then
          some ⟨String.mk scheme, String.mk rest⟩
        else none
    | _, [] => none

/-- The client (src/lib.rs `Client`): a validated base address and an opaque
credential. -/
structure Client where
  address : Url
  token : String
deriving DecidableEq

/-- `Client::new`: parse the base address, converting a parse failure into
the `UrlIssue` (spec name: `InvalidAddress`) error via `?`. -/
def Client.new (url : String) (token : String) : Except PostalError Client :=
  match Url.parse url with
  | some u => .ok { address := u, token := token }
  | none => .error .UrlIssue

/-- The concrete send-success envelope of the spec's §8 example. -/
def sendSuccessJson : Json :=
  .obj
    [ ("status", .str "success"),
      ("time", .num 1),
      ("flags", .obj []),
      ("data", .obj
        [ ("message_id", .str "m1"),
          ("messages", .obj
            [("a@example.com", .obj [("id", .num 7), ("token", .str "t")])]) ]) ]

/-- An error envelope with the given code and message. -/
def errorEnvelope (c m : String) : Json :=
  .obj
    [ ("status", .str "error"),
      ("time", .num 1),
      ("flags", .obj []),
      ("data", .obj [("code", .str c), ("message", .str m)]) ]

/-- The minimal parameter-error envelope. -/
def parameterErrorJson : Json := .obj [("status", .str "parameterError")]

/-- A sample fully-bounded message, for witnesses. -/
def sampleMessage : Message :=
  { «to» := some ["x@example.com"], subject := some "hi",
    attachments := some [[1, 2]], headers := some 5, bounce := some true }

/-- C3: status triage of the envelope decoder: 500 yields
`InternalServerError` and 503 yields `ServiceUnavailableError` regardless of
the body, 301 and 308 yield `ExpectedAlternativeUrl`, and only status 200
proceeds to body parsing. -/
theorem status_triage {D : Type} (decD : Json → Option D) (body : Json) :
    run_request decD 500 body = .err .InternalServerError ∧
    run_request decD 503 body = .err .ServiceUnavailableError ∧
    run_request decD 301 body = .err .ExpectedAlternativeUrl ∧
    run_request decD 308 body = .err .ExpectedAlternativeUrl ∧
    check_status 200 = .ok () ∧
    ∀ s : Nat, s ≠ 200 → check_status s ≠ .ok () := by
  refine ⟨rfl, rfl, rfl, rfl, rfl, ?_⟩
  intro s hs hok
  unfold check_status at hok
  split_ifs at hok
  all_goals simp_all

/-- Witness for `status_triage` at status 500 and 404 with a concrete body. -/
theorem status_triage_witness :
    run_request decodeDetailsData 500 Json.null = .err .InternalServerError ∧
    check_status 404 ≠ .ok () :=
  ⟨(status_triage decodeDetailsData Json.null).1,
   (status_triage decodeDetailsData Json.null).2.2.2.2.2 404 (by decide)⟩

/-- C4 counterexample: on an undocumented status (404) and on the
parameter-error envelope the decoder does not return any error value (so in
particular not a `MalformedResponse` one — no such variant exists): it
panics. -/
theorem undocumented_shapes_panic_counterexample :
    handle_send 404 Json.null = .panicked "internal error: entered unreachable code" ∧
    handle_send 200 parameterErrorJson = .panicked "not implemented" ∧
    (handle_send 404 Json.null).isErr = false ∧
    (handle_send 200 parameterErrorJson).isErr = false :=
  ⟨rfl, rfl, rfl, rfl⟩

/-- C4 amended: a response with an HTTP status other than 200, 500, 503,
301, 308 makes the decoder panic (`unreachable!`), and the parameter-error
envelope shape makes it panic (`unimplemented!`); neither is silently
swallowed nor returned as an error value, and no `MalformedResponse` variant
exists in the taxonomy. -/
theorem undocumented_shapes_panic {D : Type} (s : Nat)
    (h : s ≠ 200 ∧ s ≠ 500 ∧ s ≠ 503 ∧ s ≠ 301 ∧ s ≠ 308) (body : Json) :
    handle_send s body = .panicked "internal error: entered unreachable code" ∧
    check_responce (D := D) .ParameterError = .panicked "not implemented" := by
  obtain ⟨h1, h2, h3, h4, h5⟩ := h
  have hcs : check_status s = .panicked "internal error: entered unreachable code" := by
    unfold check_status
    rw [if_neg h1, if_neg h2, if_neg (fun hor => hor.elim h4 h5), if_neg h3]
  exact ⟨by unfold handle_send; rw [hcs], rfl⟩

/-- Witness for `undocumented_shapes_panic` at status 404. -/
theorem undocumented_shapes_panic_witness :
    handle_send 404 Json.null = .panicked "internal error: entered unreachable code" ∧
    check_responce (D := Unit) .ParameterError = .panicked "not implemented" :=
  undocumented_shapes_panic 404 (by decide) Json.null

/-- C5: the send decoder flattens the recipient mapping of a success payload
into one `SendResult` per recipient, pairing address and assigned id; on the
spec's concrete envelope it yields `[SendResult "a@example.com" 7]`. -/
theorem handle_send_flattens :
    (∀ (t : Rat) (f : List (String × Nat)) (d : MessageSucessData),
        handle_send_decoded (.Success t f d) =
          .ok (d.messages.map (fun p => ⟨p.1, p.2.id⟩))) ∧
    handle_send 200 sendSuccessJson = .ok [⟨"a@example.com", 7⟩] :=
  ⟨fun _ _ _ => rfl, rfl⟩

/-- C6: an error envelope decodes to `PostalError::Error` carrying exactly
the service-provided code and message; on the spec's concrete envelope it
yields code `InvalidRecipients` and message `bad to`. -/
theorem error_envelope_decodes :
    (∀ (D : Type) (t : Rat) (f : List (String × Nat)) (e : ResponceError),
        check_responce (D := D) (.Error t f e) = .err (.Error e.code e.message)) ∧
    (∀ c m : String,
        run_request decodeDetailsData 200 (errorEnvelope c m) = .err (.Error c m)) ∧
    run_request decodeDetailsData 200 (errorEnvelope "InvalidRecipients" "bad to") =
      .err (.Error "InvalidRecipients" "bad to") :=
  ⟨fun _ _ _ _ => rfl, fun _ _ => rfl, rfl⟩

/-- C9: `Client::new` fails with the `UrlIssue` kind (the spec's
`InvalidAddress`) exactly when the base address does not parse as an absolute
URL; `"not a url"` fails, `"https://postal.example.com"` succeeds. -/
theorem client_new_url_validation :
    (∀ s t : String, Url.parse s = none → Client.new s t = .error .UrlIssue) ∧
    (∀ (s t : String) (u : Url), Url.parse s = some u → Client.new s t = .ok ⟨u, t⟩) ∧
    Client.new "not a url" "token" = .error .UrlIssue ∧
    Client.new "https://postal.example.com" "token" =
      .ok ⟨⟨"https", "//postal.example.com"⟩, "token"⟩ := by
  refine ⟨?_, ?_, rfl, rfl⟩
  · intro s t h; unfold Client.new; rw [h]
  · intro s t u h; unfold Client.new; rw [h]

/-- Witness for `client_new_url_validation` at a failing and a succeeding
address. -/
theorem client_new_url_validation_witness :
    Client.new "" "t" = .error .UrlIssue ∧
    Client.new "https://x" "t" = .ok ⟨⟨"https", "//x"⟩, "t"⟩ :=
  ⟨client_new_url_validation.1 "" "t" rfl,
   client_new_url_validation.2.1 "https://x" "t" ⟨"https", "//x"⟩ rfl⟩

/-- C8: every `with_<flag>` setter is idempotent, as a stored value and hence
in the rendered wire form; in particular the double `with_status` on
`DetailsInterest::new(42)` renders identically to the single call. -/
theorem with_flag_idempotent (d : DetailsInterest) :
    d.with_status.with_status = d.with_status ∧
    d.with_details.with_details = d.with_details ∧
    d.with_inspection.with_inspection = d.with_inspection ∧
    d.with_plain_body.with_plain_body = d.with_plain_body ∧
    d.with_html_body.with_html_body = d.with_html_body ∧
    d.with_headers.with_headers = d.with_headers ∧
    d.with_raw_message.with_raw_message = d.with_raw_message ∧
    d.with_status.with_status.toJson = d.with_status.toJson ∧
    d.with_details.with_details.toJson = d.with_details.toJson ∧
    d.with_inspection.with_inspection.toJson = d.with_inspection.toJson ∧
    d.with_plain_body.with_plain_body.toJson = d.with_plain_body.toJson ∧
    d.with_html_body.with_html_body.toJson = d.with_html_body.toJson ∧
    d.with_headers.with_headers.toJson = d.with_headers.toJson ∧
    d.with_raw_message.with_raw_message.toJson = d.with_raw_message.toJson ∧
    (DetailsInterest.new 42).with_status.with_status.toJson =
      (DetailsInterest.new 42).with_status.toJson :=
  ⟨rfl, rfl, rfl, rfl, rfl, rfl, rfl, rfl, rfl, rfl, rfl, rfl, rfl, rfl, rfl⟩

/-- Every sequence of public setters leaves the `attachments` flag as it
was. -/
lemma applySetters_attachments (ss : List Setter) :
    ∀ d : DetailsInterest, (applySetters ss d).attachments = d.attachments := by
  induction ss with
  | nil => intro d; rfl
  | cons s ss ih =>
      intro d
      have hstep : applySetters (s :: ss) d = applySetters ss (applySetter s d) := rfl
      rw [hstep, ih]
      cases s <;> rfl

/-- The expansion builder never pushes the name `attachments`, whatever the
flags. -/
lemma build_expansions_no_attachments (d : DetailsInterest) :
    Json.str "attachments" ∉ (d.build_expansions_list).getD [] := by
  obtain ⟨i, s, de, insp, pb, hb, att, hd, rm⟩ := d
  cases s <;> cases de <;> cases insp <;> cases pb <;> cases hb <;> cases hd <;> cases rm <;>
    simp [DetailsInterest.build_expansions_list]

/-- C10: every `DetailsInterest` reachable through the public interface — a
constructor (`new` or the `MessageHash` conversion) followed by any sequence
of `with_<flag>` setters — has the `attachments` flag unset, and the
expansion list it renders never contains `"attachments"`. -/
theorem attachments_never_set (i : Nat) (ss : List Setter) :
    (applySetters ss (DetailsInterest.new i)).attachments = none ∧
    Json.str "attachments" ∉
      ((applySetters ss (DetailsInterest.new i)).build_expansions_list).getD [] := by
  refine ⟨?_, build_expansions_no_attachments _⟩
  rw [applySetters_attachments]
  rfl

set_option maxHeartbeats 3200000 in
/-- C1: the rendered wire form of a `DetailsInterest` binds `id` to the
message-hash; `_expansions` is absent exactly when no flag is set, and
otherwise holds the names of the set flags, each once, in the declared order
(`specExpansions`, which never mentions `attachments`). -/
theorem details_interest_render (d : DetailsInterest) :
    d.toJson.lookup "id" = some (Json.num (d.id : Rat)) ∧
    d.toJson.lookup "_expansions" =
      (if specExpansions d = [] then none
       else some (Json.arr ((specExpansions d).map Json.str))) := by
  obtain ⟨i, s, de, insp, pb, hb, att, hd, rm⟩ := d
  cases s <;> cases de <;> cases insp <;> cases pb <;> cases hb <;> cases hd <;> cases rm <;>
    exact ⟨rfl, rfl⟩

/-- C2 counterexample: the default `Message` has `to` absent, yet its
serialized form contains the key `to` (bound to `null`). -/
theorem absent_fields_null_counterexample :
    Message.default.to = none ∧
    (serialize_Message Message.default).lookup "to" = some Json.null :=
  ⟨rfl, rfl⟩

/-- C2 amended: serde's derived serialization emits every declared key; a
field left absent appears as its key bound to JSON `null` (it is not
omitted). -/
theorem absent_fields_serialize_as_null (m : Message) :
    (serialize_Message m).keys =
      ["to", "cc", "bcc", "from", "sender", "subject", "tag", "reply_to",
        "plain_body", "html_body", "attachments", "headers", "bounce"] ∧
    (m.to = none → (serialize_Message m).lookup "to" = some Json.null) ∧
    (m.cc = none → (serialize_Message m).lookup "cc" = some Json.null) ∧
    (m.bcc = none → (serialize_Message m).lookup "bcc" = some Json.null) ∧
    (m.from = none → (serialize_Message m).lookup "from" = some Json.null) ∧
    (m.sender = none → (serialize_Message m).lookup "sender" = some Json.null) ∧
    (m.subject = none → (serialize_Message m).lookup "subject" = some Json.null) ∧
    (m.tag = none → (serialize_Message m).lookup "tag" = some Json.null) ∧
    (m.reply_to = none → (serialize_Message m).lookup "reply_to" = some Json.null) ∧
    (m.plain_body = none → (serialize_Message m).lookup "plain_body" = some Json.null) ∧
    (m.html_body = none → (serialize_Message m).lookup "html_body" = some Json.null) ∧
    (m.attachments = none → (serialize_Message m).lookup "attachments" = some Json.null) ∧
    (m.headers = none → (serialize_Message m).lookup "headers" = some Json.null) ∧
    (m.bounce = none → (serialize_Message m).lookup "bounce" = some Json.null) := by
  refine ⟨rfl, ?_, ?_, ?_, ?_, ?_, ?_, ?_, ?_, ?_, ?_, ?_, ?_, ?_⟩ <;>
    · intro h
      simp only [serialize_Message, h]
      rfl

/-- Witness for `absent_fields_serialize_as_null` at the default message,
where every field is absent. -/
theorem absent_fields_serialize_as_null_witness :
    (serialize_Message Message.default).lookup "to" = some Json.null ∧
    (serialize_Message Message.default).lookup "cc" = some Json.null ∧
    (serialize_Message Message.default).lookup "bcc" = some Json.null ∧
    (serialize_Message Message.default).lookup "from" = some Json.null ∧
    (serialize_Message Message.default).lookup "sender" = some Json.null ∧
    (serialize_Message Message.default).lookup "subject" = some Json.null ∧
    (serialize_Message Message.default).lookup "tag" = some Json.null ∧
    (serialize_Message Message.default).lookup "reply_to" = some Json.null ∧
    (serialize_Message Message.default).lookup "plain_body" = some Json.null ∧
    (serialize_Message Message.default).lookup "html_body" = some Json.null ∧
    (serialize_Message Message.default).lookup "attachments" = some Json.null ∧
    (serialize_Message Message.default).lookup "headers" = some Json.null ∧
    (serialize_Message Message.default).lookup "bounce" = some Json.null := by
  have h := absent_fields_serialize_as_null Message.default
  exact ⟨h.2.1 rfl, h.2.2.1 rfl, h.2.2.2.1 rfl, h.2.2.2.2.1 rfl, h.2.2.2.2.2.1 rfl,
    h.2.2.2.2.2.2.1 rfl, h.2.2.2.2.2.2.2.1 rfl, h.2.2.2.2.2.2.2.2.1 rfl,
    h.2.2.2.2.2.2.2.2.2.1 rfl, h.2.2.2.2.2.2.2.2.2.2.1 rfl,
    h.2.2.2.2.2.2.2.2.2.2.2.1 rfl, h.2.2.2.2.2.2.2.2.2.2.2.2.1 rfl,
    h.2.2.2.2.2.2.2.2.2.2.2.2.2 rfl⟩

/-- A `u64` below `2^64` round-trips through its JSON encoding. -/
lemma decodeU64_encodeNat (n : Nat) (h : n < 2 ^ 64) : decodeU64 (encodeNat n) = some n := by
  simp only [decodeU64, encodeNat, Rat.num_natCast, Rat.den_natCast]
  rw [if_pos ⟨trivial, Int.natCast_nonneg n, by exact_mod_cast h⟩]
  simp

/-- A `u8` below `256` round-trips through its JSON encoding. -/
lemma decodeU8_encodeNat (n : Nat) (h : n < 256) : decodeU8 (encodeNat n) = some n := by
  simp only [decodeU8, encodeNat, Rat.num_natCast, Rat.den_natCast]
  rw [if_pos ⟨trivial, Int.natCast_nonneg n, by exact_mod_cast h⟩]
  simp

/-- Elementwise decoding undoes elementwise encoding. -/
lemma mapOptionList_map {α β : Type} (dec : β → Option α) (enc : α → β)
    (xs : List α) (h : ∀ a ∈ xs, dec (enc a) = some a) :
    mapOptionList dec (xs.map enc) = some xs := by
  induction xs with
  | nil => rfl
  | cons x l ih =>
      simp [mapOptionList, h x (List.mem_cons_self x l),
        ih (fun a ha => h a (List.mem_cons_of_mem x ha))]

/-- A list round-trips through its JSON array encoding when every element
does. -/
lemma decodeList_encodeList {α : Type} (dec : Json → Option α) (enc : α → Json)
    (xs : List α) (h : ∀ a ∈ xs, dec (enc a) = some a) :
    decodeList dec (encodeList enc xs) = some xs :=
  mapOptionList_map dec enc xs h

/-- An optional field round-trips through the derived `Option` encoding when
the present value does and the encoder never produces `null`. -/
lemma decodeOptField_roundtrip {α : Type} (dec : Json → Option α) (enc : α → Json)
    (o : Option α) (h : ∀ a ∈ o, dec (enc a) = some a)
    (hn : ∀ a, (enc a).isNull = false) :
    decodeOptField dec (some (encodeOptField enc o)) = some o := by
  cases o with
  | none => rfl
  | some a =>
      show (if (enc a).isNull = true then some none else Option.map some (dec (enc a))) =
        some (some a)
      rw [hn a]
      simp [h a rfl]


/-- C7: serializing a `Message` and decoding the result restores every
field, present or absent, provided the numeric fields fit their Rust widths
(`u64` headers hash, `u8` attachment bytes). -/
theorem message_roundtrip (m : Message)
    (hh : ∀ n ∈ m.headers, n < 2 ^ 64)
    (ha : ∀ a ∈ m.attachments, ∀ f ∈ a, ∀ b ∈ f, b < 256) :
    deserialize_Message (serialize_Message m) = some m := by
  have hto := decodeOptField_roundtrip (decodeList decodeString) (encodeList encodeString) m.to
    (fun a _ => decodeList_encodeList _ _ a (fun s _ => rfl)) (fun _ => rfl)
  have hcc := decodeOptField_roundtrip (decodeList decodeString) (encodeList encodeString) m.cc
    (fun a _ => decodeList_encodeList _ _ a (fun s _ => rfl)) (fun _ => rfl)
  have hbcc := decodeOptField_roundtrip (decodeList decodeString) (encodeList encodeString) m.bcc
    (fun a _ => decodeList_encodeList _ _ a (fun s _ => rfl)) (fun _ => rfl)
  have hfrom := decodeOptField_roundtrip decodeString encodeString m.from
    (fun a _ => rfl) (fun _ => rfl)
  have hsender := decodeOptField_roundtrip decodeString encodeString m.sender
    (fun a _ => rfl) (fun _ => rfl)
  have hsubject := decodeOptField_roundtrip decodeString encodeString m.subject
    (fun a _ => rfl) (fun _ => rfl)
  have htag := decodeOptField_roundtrip decodeString encodeString m.tag
    (fun a _ => rfl) (fun _ => rfl)
  have hreply := decodeOptField_roundtrip decodeString encodeString m.reply_to
    (fun a _ => rfl) (fun _ => rfl)
  have hplain := decodeOptField_roundtrip decodeString encodeString m.plain_body
    (fun a _ => rfl) (fun _ => rfl)
  have hhtml := decodeOptField_roundtrip decodeString encodeString m.html_body
    (fun a _ => rfl) (fun _ => rfl)
  have hatt := decodeOptField_roundtrip (decodeList (decodeList decodeU8))
    (encodeList (encodeList encodeNat)) m.attachments
    (fun a hma => decodeList_encodeList _ _ a
      (fun f hf => decodeList_encodeList _ _ f
        (fun b hb => decodeU8_encodeNat b (ha a hma f hf b hb))))
    (fun _ => rfl)
  have hhd := decodeOptField_roundtrip decodeU64 encodeNat m.headers
    (fun n hn => decodeU64_encodeNat n (hh n hn)) (fun _ => rfl)
  have hbo := decodeOptField_roundtrip decodeBool encodeBool m.bounce
    (fun a _ => rfl) (fun _ => rfl)
  obtain ⟨t, c, b, f, sd, su, tg, r, p, hbdy, att, hd, bo⟩ := m
  have hred : deserialize_Message (serialize_Message ⟨t, c, b, f, sd, su, tg, r, p, hbdy, att, hd, bo⟩) =
      (do
        let x1 ← decodeOptField (decodeList decodeString) (some (encodeOptField (encodeList encodeString) t))
        let x2 ← decodeOptField (decodeList decodeString) (some (encodeOptField (encodeList encodeString) c))
        let x3 ← decodeOptField (decodeList decodeString) (some (encodeOptField (encodeList encodeString) b))
        let x4 ← decodeOptField decodeString (some (encodeOptField encodeString f))
        let x5 ← decodeOptField decodeString (some (encodeOptField encodeString sd))
        let x6 ← decodeOptField decodeString (some (encodeOptField encodeString su))
        let x7 ← decodeOptField decodeString (some (encodeOptField encodeString tg))
        let x8 ← decodeOptField decodeString (some (encodeOptField encodeString r))
        let x9 ← decodeOptField decodeString (some (encodeOptField encodeString p))
        let x10 ← decodeOptField decodeString (some (encodeOptField encodeString hbdy))
        let x11 ← decodeOptField (decodeList (decodeList decodeU8)) (some (encodeOptField (encodeList (encodeList encodeNat)) att))
        let x12 ← decodeOptField decodeU64 (some (encodeOptField encodeNat hd))
        let x13 ← decodeOptField decodeBool (some (encodeOptField encodeBool bo))
        some ⟨x1, x2, x3, x4, x5, x6, x7, x8, x9, x10, x11, x12, x13⟩) := rfl
  rw [hred]
  simp only [hto, hcc, hbcc, hfrom, hsender, hsubject, htag, hreply, hplain, hhtml, hatt, hhd, hbo]
  rfl

/-- Witness for `message_roundtrip` at a concrete message with bounded
numeric fields. -/
theorem message_roundtrip_witness :
    deserialize_Message (serialize_Message sampleMessage) = some sampleMessage :=
  message_roundtrip sampleMessage
    (by
      intro n hn
      simp only [sampleMessage, Option.mem_def, Option.some.injEq] at hn
      subst hn
      decide)
    (by
      intro a hma ff hf bb hb
      simp only [sampleMessage, Option.mem_def, Option.some.injEq] at hma
      subst hma
      simp only [List.mem_singleton] at hf
      subst hf
      simp only [List.mem_cons, List.not_mem_nil, or_false] at hb
      rcases hb with rfl | rfl
      · decide
      · decide)

end Postal
